import Mathlib

/-!
Verification of the SQL INSERT column/value extractor
(`parse_sql_columns.py`): a shallow embedding of the token-tree data
model and of the functions `split_queries`, `extract_col_values` and
`tokenize_cols_values`, together with theorems settling the spec claims.
-/

set_option maxHeartbeats 1000000

/-- Terminal kind of a leaf token (`sqlparse.tokens` ttype as the spec's
vocabulary: `Punctuation`, `Whitespace`, `Keyword`, anything else `Other`). -/
inductive TerminalKind where
  | Punctuation
  | Whitespace
  | Keyword
  | Other
deriving DecidableEq, Repr

/-- Composite kind of a `TokenList` node (`sqlparse.sql` subclasses:
`Identifier`, `IdentifierList`, `Parenthesis`, `Function`, anything else
`Other`).  The Python classes are pairwise disjoint for these four. -/
inductive CompositeKind where
  | Identifier
  | IdentifierList
  | ParenthesisGroup
  | FunctionCall
  | Other
deriving DecidableEq, Repr

/-- A token-tree node: a leaf `Token` (with its exact source text) or a
composite `TokenList` with ordered children. -/
inductive TokTree where
  | leaf (kind : TerminalKind) (text : String)
  | node (kind : CompositeKind) (children : List TokTree)

namespace TokTree

mutual

/-- `str(t)`: the exact source text of a node.  For a composite it is the
concatenation of the children's texts, as in `sqlparse.sql.TokenList`. -/
def text : TokTree → String
  | .leaf _ s => s
  | .node _ cs => textList cs

/-- Concatenated text of a list of nodes. -/
def textList : List TokTree → String
  | [] => ""
  | t :: ts => text t ++ textList ts

end

/-- `isinstance(tok, sqlparse.sql.TokenList)`: the node is composite. -/
def isTokenList : TokTree → Bool
  | .node _ _ => true
  | .leaf _ _ => false

/-- `isinstance(tok, sqlparse.sql.Function)`. -/
def isFunction : TokTree → Bool
  | .node .FunctionCall _ => true
  | _ => false

/-- `isinstance(tok, sqlparse.sql.Parenthesis)`. -/
def isParenthesis : TokTree → Bool
  | .node .ParenthesisGroup _ => true
  | _ => false

/-- `isinstance(tok, sqlparse.sql.IdentifierList)`. -/
def isIdentifierList : TokTree → Bool
  | .node .IdentifierList _ => true
  | _ => false

/-- `isinstance(t, sqlparse.sql.Identifier)`. -/
def isIdentifier : TokTree → Bool
  | .node .Identifier _ => true
  | _ => false

/-- `t.ttype is Keyword`: a leaf whose terminal kind is exactly `Keyword`
(composites have `ttype None`). -/
def ttypeIsKeyword : TokTree → Bool
  | .leaf .Keyword _ => true
  | _ => false

/-- `t.ttype in (Token.Punctuation, Token.Text.Whitespace)`: a leaf whose
terminal kind is `Punctuation` or `Whitespace`. -/
def ttypeIsPunctOrWs : TokTree → Bool
  | .leaf .Punctuation _ => true
  | .leaf .Whitespace _ => true
  | _ => false

/-- Children of a node; iterating a `TokenList` in Python yields its
`tokens` list (only composites are ever iterated by the extractor). -/
def children : TokTree → List TokTree
  | .leaf _ _ => []
  | .node _ cs => cs

end TokTree

/-- The Python exceptions the extractor can raise, all unguarded:
`ValueError` from the two-element unpacking at line 43, `IndexError`
from the `[0]` indexing at lines 48 and 63, `AssertionError` from the
`assert` at line 76 (the spec's `StructuralMismatch`). -/
inductive PyExn where
  | valueError
  | indexError
  | assertionError
deriving DecidableEq, Repr

/-- The column-collecting loop of `tokenize_cols_values` (lines 51-58):
keep a child when it is an `Identifier` composite or its ttype is
`Keyword`, recording `str(t)`; discard every other child, in order. -/
def collectColumns (ts : List TokTree) : List String :=
  ts.filterMap fun t =>
    if t.isIdentifier || t.ttypeIsKeyword then some t.text else none

/-- The value-collecting loop of `tokenize_cols_values` (lines 64-72):
discard a child whose ttype is `Punctuation` or `Whitespace`, keep the
exact text `str(t)` of everything else, in order. -/
def collectValues (ts : List TokTree) : List String :=
  ts.filterMap fun t =>
    if t.ttypeIsPunctOrWs then none else some t.text

/-- `tokenize_cols_values(t_cols, t_values_tuple)` (lines 39-77).
Line 43 unpacks the composite (`TokenList`) children of `t_cols` into
exactly `(t_table, t_columns)` (else `ValueError`); line 48 takes the
first `IdentifierList` child of `t_columns` (else `IndexError`); line 63
takes the first `IdentifierList` child of `t_values_tuple` (else
`IndexError`); line 74 zips the `table.column` names with the values and
line 76 asserts the counts agree (else `AssertionError`). -/
def tokenize_cols_values (t_cols t_values_tuple : TokTree) :
    Except PyExn (List (String × String)) :=
  match t_cols.children.filter TokTree.isTokenList with
  | [t_table, t_columns] =>
    let table := t_table.text
    match (t_columns.children.filter TokTree.isIdentifierList).head? with
    | none => .error .indexError
    | some t_column_identifiers =>
      let columns := collectColumns t_column_identifiers.children
      match (t_values_tuple.children.filter TokTree.isIdentifierList).head? with
      | none => .error .indexError
      | some t_values =>
        let values := collectValues t_values.children
        let r := (columns.map fun col => table ++ "." ++ col).zip values
        if values.length = columns.length then .ok r
        else .error .assertionError
  | _ => .error .valueError

/-- A parsed statement as the extractor sees it: the result of
`items.get_type()` and the top-level token children (iterating
`items`).  `str(items)` is the concatenation of the children's texts. -/
structure Statement where
  get_type : String
  children : List TokTree

/-- `str(items)` for a statement. -/
def Statement.text (s : Statement) : String :=
  TokTree.textList s.children

/-- Python `str.strip()`: remove leading and trailing whitespace. -/
def pyStrip (s : String) : String :=
  ⟨((s.data.dropWhile Char.isWhitespace).reverse.dropWhile Char.isWhitespace).reverse⟩

/-- One output record: the ordered dict built by `extract_col_values`,
holding `query` and at most one of `columns` / `error`. -/
structure ExtractionResult where
  query : String
  columns : Option (List (String × String))
  error : Option String
deriving DecidableEq, Repr

/-- The bucketing loop of `extract_col_values` (lines 25-31): scan the
top-level children in order, appending `Function` nodes to the target
list and `Parenthesis` nodes to the values list. -/
def bucketGroups : List TokTree → List TokTree × List TokTree
  | [] => ([], [])
  | t :: ts =>
    let (fs, ps) := bucketGroups ts
    if t.isFunction then (t :: fs, ps)
    else if t.isParenthesis then (fs, t :: ps)
    else (fs, ps)

/-- The accumulation loop of `extract_col_values` (lines 33-35): for each
zipped `(target, values)` pair append `tokenize_cols_values`'s pairs; an
exception in any call aborts the loop. -/
def pairLoop : List (TokTree × TokTree) → Except PyExn (List (String × String))
  | [] => .ok []
  | (t, v) :: rest =>
    match tokenize_cols_values t v with
    | .error e => .error e
    | .ok ps =>
      match pairLoop rest with
      | .error e => .error e
      | .ok rs => .ok (ps ++ rs)

/-- `extract_col_values(items)` (lines 15-37): build the record with
`query = str(items).strip()`; `UNKNOWN` type yields the error
`"Parsing failed"`, any non-`INSERT` type yields
`"Unsupported query type {type}"`, and an `INSERT` buckets its children
into target/value groups, zips them positionally and accumulates the
tokenized pairs into `columns`.  Exceptions propagate. -/
def extract_col_values (items : Statement) : Except PyExn ExtractionResult :=
  let query := pyStrip items.text
  if items.get_type = "UNKNOWN" then
    .ok ⟨query, none, some "Parsing failed"⟩
  else if items.get_type ≠ "INSERT" then
    .ok ⟨query, none, some ("Unsupported query type " ++ items.get_type)⟩
  else
    let (t_table_and_columns_arr, t_values_tuple_arr) := bucketGroups items.children
    match pairLoop (t_table_and_columns_arr.zip t_values_tuple_arr) with
    | .ok col_value_pairs => .ok ⟨query, some col_value_pairs, none⟩
    | .error e => .error e

/-- `str(q).isspace()`: non-empty and all whitespace. -/
def pyIsSpace (s : String) : Bool :=
  s ≠ "" && s.toList.all Char.isWhitespace

/-- The list comprehension of `split_queries` over the already-filtered
statements: evaluate `extract_col_values` on each statement in order; an
exception aborts the whole comprehension. -/
def extractLoop : List Statement → Except PyExn (List ExtractionResult)
  | [] => .ok []
  | q :: qs =>
    match extract_col_values q with
    | .error e => .error e
    | .ok r =>
      match extractLoop qs with
      | .error e => .error e
      | .ok rs => .ok (r :: rs)

/-- `split_queries(str_in)` (lines 11-13), taking the tokenizer's output
(the external `sqlparse.parse`) as input: extract from every statement
whose text is not pure whitespace; an exception aborts the whole
comprehension, producing no list at all. -/
def split_queries (items : List Statement) : Except PyExn (List ExtractionResult) :=
  extractLoop (items.filter fun q => !pyIsSpace q.text)

/-- The data the spec ascribes to one well-formed target/value group: a
table name, the declared column names in order, and the value texts in
order. -/
structure GroupData where
  tbl : String
  cols : List String
  vals : List String

/-- The `(qualifiedColumn, value)` pairs one group contributes: each
column qualified as `table.column`, zipped positionally with the
values. -/
def GroupData.pairs (d : GroupData) : List (String × String) :=
  (d.cols.map fun c => d.tbl ++ "." ++ c).zip d.vals

/-- The shape `tokenize_cols_values` finds in one target/value group, as
data: the target group has exactly the composite children `[a, b]`, `a`'s
text is the table name, the first `IdentifierList` child of `b` yields the
declared columns, and the first `IdentifierList` child of the value group
yields the values. -/
def GroupShape (g v : TokTree) (d : GroupData) : Prop :=
  ∃ a b il vl,
    g.children.filter TokTree.isTokenList = [a, b] ∧
    a.text = d.tbl ∧
    (b.children.filter TokTree.isIdentifierList).head? = some il ∧
    collectColumns il.children = d.cols ∧
    (v.children.filter TokTree.isIdentifierList).head? = some vl ∧
    collectValues vl.children = d.vals

/-! ### Concrete sample inputs (token trees in the shape `sqlparse`
produces for the repository's own test statements) -/

/-- The `Identifier` node for table `t1`. -/
def identT1 : TokTree := .node .Identifier [.leaf .Other "t1"]

/-- The column list `col_a, col_b`. -/
def ilCols1 : TokTree :=
  .node .IdentifierList
    [ .node .Identifier [.leaf .Other "col_a"]
    , .leaf .Punctuation ","
    , .leaf .Whitespace " "
    , .node .Identifier [.leaf .Other "col_b"] ]

/-- The parenthesis wrapper `(col_a, col_b)`. -/
def parenCols1 : TokTree :=
  .node .ParenthesisGroup [.leaf .Punctuation "(", ilCols1, .leaf .Punctuation ")"]

/-- The target group `t1(col_a, col_b)`. -/
def sampleTarget1 : TokTree := .node .FunctionCall [identT1, parenCols1]

/-- The value expression list `'v_a', 2`. -/
def ilVals1 : TokTree :=
  .node .IdentifierList
    [ .leaf .Other "'v_a'"
    , .leaf .Punctuation ","
    , .leaf .Whitespace " "
    , .leaf .Other "2" ]

/-- The value group `('v_a', 2)`. -/
def sampleValues1 : TokTree :=
  .node .ParenthesisGroup [.leaf .Punctuation "(", ilVals1, .leaf .Punctuation ")"]

/-- The `Identifier` node for table `t2`. -/
def identT2 : TokTree := .node .Identifier [.leaf .Other "t2"]

/-- The column list `col_d, col_c`. -/
def ilCols2 : TokTree :=
  .node .IdentifierList
    [ .node .Identifier [.leaf .Other "col_d"]
    , .leaf .Punctuation ","
    , .leaf .Whitespace " "
    , .node .Identifier [.leaf .Other "col_c"] ]

/-- The parenthesis wrapper `(col_d, col_c)`. -/
def parenCols2 : TokTree :=
  .node .ParenthesisGroup [.leaf .Punctuation "(", ilCols2, .leaf .Punctuation ")"]

/-- The target group `t2(col_d, col_c)`. -/
def sampleTarget2 : TokTree := .node .FunctionCall [identT2, parenCols2]

/-- The value expression list `4, 3`. -/
def ilVals2 : TokTree :=
  .node .IdentifierList
    [ .leaf .Other "4"
    , .leaf .Punctuation ","
    , .leaf .Whitespace " "
    , .leaf .Other "3" ]

/-- The value group `(4, 3)`. -/
def sampleValues2 : TokTree :=
  .node .ParenthesisGroup [.leaf .Punctuation "(", ilVals2, .leaf .Punctuation ")"]

/-- The statement `insert into t1(col_a, col_b) values ('v_a', 2);`. -/
def sampleInsert : Statement :=
  ⟨"INSERT",
   [ .leaf .Keyword "insert", .leaf .Whitespace " ", .leaf .Keyword "into",
     .leaf .Whitespace " ", sampleTarget1, .leaf .Whitespace " ",
     .leaf .Keyword "values", .leaf .Whitespace " ", sampleValues1,
     .leaf .Punctuation ";" ]⟩

/-- The statement
`insert all into t1(col_a, col_b) values ('v_a', 2) into t2(col_d, col_c) values (4, 3);`. -/
def sampleInsertAll : Statement :=
  ⟨"INSERT",
   [ .leaf .Keyword "insert", .leaf .Whitespace " ", .leaf .Keyword "all",
     .leaf .Whitespace " ", .leaf .Keyword "into", .leaf .Whitespace " ",
     sampleTarget1, .leaf .Whitespace " ", .leaf .Keyword "values",
     .leaf .Whitespace " ", sampleValues1, .leaf .Whitespace " ",
     .leaf .Keyword "into", .leaf .Whitespace " ", sampleTarget2,
     .leaf .Whitespace " ", .leaf .Keyword "values", .leaf .Whitespace " ",
     sampleValues2, .leaf .Punctuation ";" ]⟩

/-- An unparseable statement (`get_type() == 'UNKNOWN'`). -/
def sampleUnknown : Statement := ⟨"UNKNOWN", [.leaf .Other "reiteb5yiure"]⟩

/-- A recognized non-INSERT statement (`select 1 from dual;`). -/
def sampleSelect : Statement :=
  ⟨"SELECT",
   [ .leaf .Keyword "select", .leaf .Whitespace " ", .leaf .Other "1",
     .leaf .Whitespace " ", .leaf .Keyword "from", .leaf .Whitespace " ",
     .leaf .Other "dual", .leaf .Punctuation ";" ]⟩

/-- A value group whose identifier list holds a single value `'x'`:
too few values for the two declared columns of `sampleTarget1`. -/
def shortValues : TokTree :=
  .node .ParenthesisGroup
    [.leaf .Punctuation "(", .node .IdentifierList [.leaf .Other "'x'"],
     .leaf .Punctuation ")"]

/-- A mismatched statement: two declared columns, one value. -/
def sampleMismatch : Statement :=
  ⟨"INSERT",
   [ .leaf .Keyword "insert", .leaf .Whitespace " ", .leaf .Keyword "into",
     .leaf .Whitespace " ", sampleTarget1, .leaf .Whitespace " ",
     .leaf .Keyword "values", .leaf .Whitespace " ", shortValues,
     .leaf .Punctuation ";" ]⟩

/-- A composite child of kind `Other` with text `ptab`: not an
`Identifier`, yet placed where the table node is expected. -/
def otherTab : TokTree := .node .Other [.leaf .Other "ptab"]

/-- The column list `c`. -/
def ilColsC : TokTree :=
  .node .IdentifierList [.node .Identifier [.leaf .Other "c"]]

/-- A column wrapper `(c)`. -/
def parenColsC : TokTree :=
  .node .ParenthesisGroup [.leaf .Punctuation "(", ilColsC, .leaf .Punctuation ")"]

/-- A target group whose composite children are `[otherTab, parenColsC]`:
it contains no `Identifier`-kind child at all. -/
def noIdentTarget : TokTree := .node .FunctionCall [otherTab, parenColsC]

/-- The value list `1`. -/
def ilVals1Only : TokTree := .node .IdentifierList [.leaf .Other "1"]

/-- The value group `(1)`. -/
def singleValue : TokTree :=
  .node .ParenthesisGroup [.leaf .Punctuation "(", ilVals1Only, .leaf .Punctuation ")"]

/-- An INSERT statement whose target group has no `Identifier`-kind
child. -/
def noIdentInsert : Statement :=
  ⟨"INSERT",
   [ .leaf .Keyword "insert", .leaf .Whitespace " ",
     noIdentTarget, .leaf .Whitespace " ", singleValue ]⟩

/-- A target group whose column wrapper `()` holds no `IdentifierList`
child. -/
def noIlTarget : TokTree :=
  .node .FunctionCall
    [identT1,
     .node .ParenthesisGroup [.leaf .Punctuation "(", .leaf .Punctuation ")"]]

/-- An INSERT statement whose target group's column wrapper holds no
`IdentifierList` child. -/
def noIlInsert : Statement :=
  ⟨"INSERT",
   [ .leaf .Keyword "insert", .leaf .Whitespace " ",
     noIlTarget, .leaf .Whitespace " ", singleValue ]⟩

/-- An INSERT statement with no `Function` and no `Parenthesis`
children at top level. -/
def bareInsert : Statement :=
  ⟨"INSERT",
   [ .leaf .Keyword "insert", .leaf .Whitespace " ", .leaf .Keyword "into",
     .leaf .Whitespace " ", .leaf .Other "t1" ]⟩

/-! ### Helper lemmas about the embedded functions -/

theorem TokTree.not_isParenthesis_of_isFunction (t : TokTree)
    (h : t.isFunction = true) : t.isParenthesis = false := by
  cases t with
  | leaf k s => simp [TokTree.isFunction] at h
  | node k cs => cases k <;> simp_all [TokTree.isFunction, TokTree.isParenthesis]

theorem bucketGroups_eq_filters (cs : List TokTree) :
    bucketGroups cs =
      (cs.filter TokTree.isFunction, cs.filter TokTree.isParenthesis) := by
  induction cs with
  | nil => rfl
  | cons t ts ih =>
    simp only [bucketGroups, ih, List.filter_cons]
    cases hf : t.isFunction with
    | true => simp [TokTree.not_isParenthesis_of_isFunction t hf]
    | false => cases hp : t.isParenthesis <;> simp [hf, hp]

theorem tokenize_eq_ok (g v a b il vl : TokTree)
    (hab : g.children.filter TokTree.isTokenList = [a, b])
    (hil : (b.children.filter TokTree.isIdentifierList).head? = some il)
    (hvl : (v.children.filter TokTree.isIdentifierList).head? = some vl)
    (hlen : (collectValues vl.children).length = (collectColumns il.children).length) :
    tokenize_cols_values g v =
      .ok (((collectColumns il.children).map fun col => a.text ++ "." ++ col).zip
           (collectValues vl.children)) := by
  simp only [tokenize_cols_values, hab, hil, hvl]
  simp [hlen]

theorem tokenize_eq_mismatch (g v a b il vl : TokTree)
    (hab : g.children.filter TokTree.isTokenList = [a, b])
    (hil : (b.children.filter TokTree.isIdentifierList).head? = some il)
    (hvl : (v.children.filter TokTree.isIdentifierList).head? = some vl)
    (hne : (collectValues vl.children).length ≠ (collectColumns il.children).length) :
    tokenize_cols_values g v = .error .assertionError := by
  simp only [tokenize_cols_values, hab, hil, hvl]
  simp [hne]

theorem pairLoop_ok_of_forall₂ (l : List (TokTree × TokTree))
    (pss : List (List (String × String)))
    (h : List.Forall₂ (fun gv ps => tokenize_cols_values gv.1 gv.2 = .ok ps) l pss) :
    pairLoop l = .ok pss.flatten := by
  induction h with
  | nil => rfl
  | @cons gv ps l' pss' h1 h2 ih =>
    obtain ⟨t, v⟩ := gv
    simp only [pairLoop, h1, ih, List.flatten]

theorem pairLoop_not_ok {l : List (TokTree × TokTree)} {g v : TokTree} {e : PyExn}
    (he : tokenize_cols_values g v = .error e) :
    (g, v) ∈ l → ∀ ps, pairLoop l ≠ .ok ps := by
  induction l with
  | nil => intro hm; cases hm
  | cons hd tl ih =>
    intro hm ps hok
    obtain ⟨t, v'⟩ := hd
    rcases List.mem_cons.mp hm with heq | hmem
    · cases heq
      simp [pairLoop, he] at hok
    · cases htok : tokenize_cols_values t v' with
      | error e' => simp [pairLoop, htok] at hok
      | ok ps' =>
        cases hrest : pairLoop tl with
        | error e' => simp [pairLoop, htok, hrest] at hok
        | ok rs => exact ih hmem rs hrest

theorem extract_insert (s : Statement) (hty : s.get_type = "INSERT") :
    extract_col_values s =
      match pairLoop ((s.children.filter TokTree.isFunction).zip
                      (s.children.filter TokTree.isParenthesis)) with
      | .ok ps => .ok ⟨pyStrip s.text, some ps, none⟩
      | .error e => .error e := by
  unfold extract_col_values
  rw [hty]
  simp [bucketGroups_eq_filters]

theorem extract_insert_not_ok (s : Statement) (hty : s.get_type = "INSERT")
    (h : ∀ ps, pairLoop ((s.children.filter TokTree.isFunction).zip
                         (s.children.filter TokTree.isParenthesis)) ≠ .ok ps) :
    ∀ r, extract_col_values s ≠ .ok r := by
  intro r hok
  rw [extract_insert s hty] at hok
  cases hpl : pairLoop ((s.children.filter TokTree.isFunction).zip
                        (s.children.filter TokTree.isParenthesis)) with
  | ok ps => exact h ps hpl
  | error e => rw [hpl] at hok; cases hok

theorem extractLoop_not_ok {qs : List Statement} {s : Statement}
    (hs : ∀ r, extract_col_values s ≠ .ok r) :
    s ∈ qs → ∀ rs, extractLoop qs ≠ .ok rs := by
  induction qs with
  | nil => intro hm; cases hm
  | cons q tl ih =>
    intro hm rs hok
    rcases List.mem_cons.mp hm with heq | hmem
    · cases heq
      cases hq : extract_col_values s with
      | ok r => exact hs r hq
      | error e => simp [extractLoop, hq] at hok
    · cases hq : extract_col_values q with
      | error e => simp [extractLoop, hq] at hok
      | ok r =>
        cases hrest : extractLoop tl with
        | error e => simp [extractLoop, hq, hrest] at hok
        | ok rs' => exact ih hmem rs' hrest

theorem split_queries_not_ok {items : List Statement} {s : Statement}
    (hmem : s ∈ items.filter fun q => !pyIsSpace q.text)
    (hs : ∀ r, extract_col_values s ≠ .ok r) :
    ∀ rs, split_queries items ≠ .ok rs := by
  intro rs
  exact extractLoop_not_ok hs hmem rs

theorem extractLoop_cons (q : Statement) (qs : List Statement) (r : ExtractionResult)
    (h : extract_col_values q = .ok r) :
    extractLoop (q :: qs) = (extractLoop qs).map fun rs => r :: rs := by
  cases hrest : extractLoop qs <;> simp [extractLoop, h, hrest, Except.map]

theorem collectColumns_eq_filter_map (ts : List TokTree) :
    collectColumns ts =
      (ts.filter fun t => t.isIdentifier || t.ttypeIsKeyword).map TokTree.text := by
  induction ts with
  | nil => rfl
  | cons t ts ih =>
    cases h : (t.isIdentifier || t.ttypeIsKeyword) with
    | true =>
      have h1 : collectColumns (t :: ts) = t.text :: collectColumns ts := by
        rw [collectColumns, collectColumns, List.filterMap_cons, if_pos h]
      rw [h1,
        @List.filter_cons_of_pos _ (fun t => t.isIdentifier || t.ttypeIsKeyword) t ts h,
        List.map_cons, ih]
    | false =>
      have h1 : collectColumns (t :: ts) = collectColumns ts := by
        rw [collectColumns, collectColumns, List.filterMap_cons, if_neg (by simp [h])]
      rw [h1,
        @List.filter_cons_of_neg _ (fun t => t.isIdentifier || t.ttypeIsKeyword) t ts
          (by simp [h]), ih]

theorem collectValues_eq_filter_map (ts : List TokTree) :
    collectValues ts =
      (ts.filter fun t => !t.ttypeIsPunctOrWs).map TokTree.text := by
  induction ts with
  | nil => rfl
  | cons t ts ih =>
    cases h : t.ttypeIsPunctOrWs with
    | false =>
      have h1 : collectValues (t :: ts) = t.text :: collectValues ts := by
        rw [collectValues, collectValues, List.filterMap_cons, if_neg (by simp [h])]
      rw [h1,
        @List.filter_cons_of_pos _ (fun t => !t.ttypeIsPunctOrWs) t ts (by simp [h]),
        List.map_cons, ih]
    | true =>
      have h1 : collectValues (t :: ts) = collectValues ts := by
        rw [collectValues, collectValues, List.filterMap_cons, if_pos h]
      rw [h1,
        @List.filter_cons_of_neg _ (fun t => !t.ttypeIsPunctOrWs) t ts (by simp [h]), ih]

theorem tokenize_ok_of_groupShape (g v : TokTree) (d : GroupData)
    (hs : GroupShape g v d) (hlen : d.cols.length = d.vals.length) :
    tokenize_cols_values g v = .ok d.pairs := by
  obtain ⟨a, b, il, vl, hab, hat, hil, hcols, hvl, hvals⟩ := hs
  have h := tokenize_eq_ok g v a b il vl hab hil hvl
    (by rw [hvals, hcols]; exact hlen.symm)
  rw [h, hat, hcols, hvals]
  rfl

theorem forall₂_tokenize_of_groupShape {l : List (TokTree × TokTree)}
    {ds : List GroupData}
    (h : List.Forall₂
      (fun gv d => GroupShape gv.1 gv.2 d ∧ d.cols.length = d.vals.length) l ds) :
    List.Forall₂ (fun gv ps => tokenize_cols_values gv.1 gv.2 = .ok ps)
      l (ds.map GroupData.pairs) := by
  induction h with
  | nil => exact .nil
  | @cons gv d l' ds' h1 h2 ih =>
    exact .cons (tokenize_ok_of_groupShape gv.1 gv.2 d h1.1 h1.2) ih

theorem forall₂_groupShape_len {l : List (TokTree × TokTree)}
    {ds : List GroupData}
    (h : List.Forall₂
      (fun gv d => GroupShape gv.1 gv.2 d ∧ d.cols.length = d.vals.length) l ds) :
    ∀ d ∈ ds, d.cols.length = d.vals.length := by
  induction h with
  | nil => intro d hd; cases hd
  | @cons gv d' l' ds' h1 h2 ih =>
    intro d hd
    rcases List.mem_cons.mp hd with heq | hmem
    · exact heq ▸ h1.2
    · exact ih d hmem

/-! ### Claim theorems -/

/-- C1: for a single-target INSERT whose token tree declares N columns,
extraction yields exactly N `(qualifiedColumn, value)` pairs in declared
column order; for INSERT ALL with k target/value groups, extraction
yields the concatenation of each group's pairs in group-appearance
order, group-internal order preserved, each column qualified as
`table.column`.  Stated uniformly: if the positionally zipped
target/value groups of the statement are described by the group data
`ds` (table, declared columns, values, with matching counts per group),
the result's `columns` is the flattened concatenation of each group's
qualified zip, and each group contributes exactly as many pairs as it
declares columns. -/
theorem insert_extraction_pairs_law (s : Statement)
    (hty : s.get_type = "INSERT") (ds : List GroupData)
    (hall : List.Forall₂
      (fun gv d => GroupShape gv.1 gv.2 d ∧ d.cols.length = d.vals.length)
      ((s.children.filter TokTree.isFunction).zip
        (s.children.filter TokTree.isParenthesis)) ds) :
    extract_col_values s =
      .ok ⟨pyStrip s.text, some (ds.map GroupData.pairs).flatten, none⟩ ∧
    ∀ d ∈ ds, (GroupData.pairs d).length = d.cols.length := by
  constructor
  · rw [extract_insert s hty,
      pairLoop_ok_of_forall₂ _ _ (forall₂_tokenize_of_groupShape hall)]
  · intro d hd
    have hlen := forall₂_groupShape_len hall d hd
    simp [GroupData.pairs, List.length_zip, hlen]

/-- Witness for C1 at the INSERT ALL sample with two groups. -/
theorem insert_extraction_pairs_law_witness :
    extract_col_values sampleInsertAll =
      .ok ⟨"insert all into t1(col_a, col_b) values ('v_a', 2) into t2(col_d, col_c) values (4, 3);",
           some [("t1.col_a", "'v_a'"), ("t1.col_b", "2"),
                 ("t2.col_d", "4"), ("t2.col_c", "3")], none⟩ ∧
    ∀ d ∈ [(⟨"t1", ["col_a", "col_b"], ["'v_a'", "2"]⟩ : GroupData),
           (⟨"t2", ["col_d", "col_c"], ["4", "3"]⟩ : GroupData)],
      (GroupData.pairs d).length = d.cols.length := by
  have h := insert_extraction_pairs_law sampleInsertAll rfl
    [⟨"t1", ["col_a", "col_b"], ["'v_a'", "2"]⟩,
     ⟨"t2", ["col_d", "col_c"], ["4", "3"]⟩]
    (by
      have hzip : (sampleInsertAll.children.filter TokTree.isFunction).zip
          (sampleInsertAll.children.filter TokTree.isParenthesis) =
          [(sampleTarget1, sampleValues1), (sampleTarget2, sampleValues2)] := rfl
      rw [hzip]
      exact .cons ⟨⟨identT1, parenCols1, ilCols1, ilVals1, rfl, rfl, rfl, rfl, rfl, rfl⟩, rfl⟩
        (.cons ⟨⟨identT2, parenCols2, ilCols2, ilVals2, rfl, rfl, rfl, rfl, rfl, rfl⟩, rfl⟩ .nil))
  exact ⟨h.1, h.2⟩

/-- C2: if the extracted column count and value count disagree for a
processed target/value pair, `tokenize_cols_values` fails with the
assertion error (the spec's `StructuralMismatch`), the statement's
extraction produces no result record, and the whole run produces no
result list at all. -/
theorem structural_mismatch_aborts_run (g v a b il vl : TokTree)
    (hab : g.children.filter TokTree.isTokenList = [a, b])
    (hil : (b.children.filter TokTree.isIdentifierList).head? = some il)
    (hvl : (v.children.filter TokTree.isIdentifierList).head? = some vl)
    (hne : (collectColumns il.children).length ≠ (collectValues vl.children).length)
    (stmts : List Statement) (s : Statement)
    (hmem : s ∈ stmts.filter fun q => !pyIsSpace q.text)
    (hty : s.get_type = "INSERT")
    (hpair : (g, v) ∈ (s.children.filter TokTree.isFunction).zip
                       (s.children.filter TokTree.isParenthesis)) :
    tokenize_cols_values g v = .error .assertionError ∧
    (∀ r, extract_col_values s ≠ .ok r) ∧
    (∀ rs, split_queries stmts ≠ .ok rs) := by
  have htok := tokenize_eq_mismatch g v a b il vl hab hil hvl fun hc => hne hc.symm
  have hext := extract_insert_not_ok s hty fun ps => pairLoop_not_ok htok hpair ps
  exact ⟨htok, hext, split_queries_not_ok hmem hext⟩

/-- Witness for C2: two declared columns, one value. -/
theorem structural_mismatch_aborts_run_witness :
    tokenize_cols_values sampleTarget1 shortValues = .error .assertionError ∧
    (∀ r, extract_col_values sampleMismatch ≠ .ok r) ∧
    (∀ rs, split_queries [sampleMismatch] ≠ .ok rs) :=
  structural_mismatch_aborts_run sampleTarget1 shortValues identT1 parenCols1
    ilCols1 (.node .IdentifierList [.leaf .Other "'x'"]) rfl rfl rfl (by decide)
    [sampleMismatch] sampleMismatch (List.mem_singleton.mpr rfl) rfl
    (List.mem_singleton.mpr rfl)

/-- C3 counterexample: a target group whose children contain no
`Identifier`-kind node at all is still processed successfully, and the
reported table name `ptab` is the text of an `Other`-kind composite
placed first — so the extractor does not locate the table node by its
composite kind, contradicting the claim. -/
theorem target_group_kind_location_counterexample :
    noIdentTarget.children.filter TokTree.isIdentifier = [] ∧
    tokenize_cols_values noIdentTarget singleValue = .ok [("ptab.c", "1")] ∧
    extract_col_values noIdentInsert =
      .ok ⟨"insert ptab(c) (1)", some [("ptab.c", "1")], none⟩ :=
  ⟨rfl, rfl, rfl⟩

/-- C3 (amended): the extractor selects the composite (`TokenList`)
children of the target group in order, requires exactly two, and assigns
them positionally — the first becomes the table node and the second the
column wrapper — regardless of their composite kinds; the table name is
the exact source text of that first composite child.  (When the group is
well-formed, Identifier first, the table name is the Identifier's
text.) -/
theorem target_group_positional_selection (g v a b il vl : TokTree)
    (hab : g.children.filter TokTree.isTokenList = [a, b])
    (hil : (b.children.filter TokTree.isIdentifierList).head? = some il)
    (hvl : (v.children.filter TokTree.isIdentifierList).head? = some vl)
    (hlen : (collectValues vl.children).length = (collectColumns il.children).length) :
    tokenize_cols_values g v =
      .ok (((collectColumns il.children).map fun c => a.text ++ "." ++ c).zip
           (collectValues vl.children)) :=
  tokenize_eq_ok g v a b il vl hab hil hvl hlen

/-- Witness for the amended C3, at a group whose first composite child is
not an `Identifier`. -/
theorem target_group_positional_selection_witness :
    tokenize_cols_values noIdentTarget singleValue =
      .ok (((collectColumns ilColsC.children).map
              fun c => otherTab.text ++ "." ++ c).zip
           (collectValues ilVals1Only.children)) :=
  target_group_positional_selection noIdentTarget singleValue otherTab parenColsC
    ilColsC ilVals1Only rfl rfl rfl rfl

/-- C4: every produced result record carries the stripped query text plus
exactly one of `columns` / `error` — never both, never neither —
whatever the statement's classification was. -/
theorem result_exactly_one_of_columns_error (s : Statement) (r : ExtractionResult)
    (h : extract_col_values s = .ok r) :
    r.query = pyStrip s.text ∧
    (((∃ cs, r.columns = some cs) ∧ r.error = none) ∨
     (r.columns = none ∧ ∃ msg, r.error = some msg)) := by
  by_cases h1 : s.get_type = "UNKNOWN"
  · have he : extract_col_values s =
        .ok ⟨pyStrip s.text, none, some "Parsing failed"⟩ := by
      unfold extract_col_values
      rw [if_pos h1]
    rw [he] at h
    cases h
    exact ⟨rfl, .inr ⟨rfl, "Parsing failed", rfl⟩⟩
  · by_cases h2 : s.get_type = "INSERT"
    · rw [extract_insert s h2] at h
      cases hpl : pairLoop ((s.children.filter TokTree.isFunction).zip
          (s.children.filter TokTree.isParenthesis)) with
      | ok colvals =>
        rw [hpl] at h
        cases h
        exact ⟨rfl, .inl ⟨⟨colvals, rfl⟩, rfl⟩⟩
      | error e => rw [hpl] at h; cases h
    · have he : extract_col_values s =
          .ok ⟨pyStrip s.text, none,
               some ("Unsupported query type " ++ s.get_type)⟩ := by
        unfold extract_col_values
        rw [if_neg h1, if_pos h2]
      rw [he] at h
      cases h
      exact ⟨rfl, .inr ⟨rfl, "Unsupported query type " ++ s.get_type, rfl⟩⟩

/-- Witness for C4 at the single-target sample INSERT. -/
theorem result_exactly_one_of_columns_error_witness :
    (⟨"insert into t1(col_a, col_b) values ('v_a', 2);",
      some [("t1.col_a", "'v_a'"), ("t1.col_b", "2")], none⟩ : ExtractionResult).query
        = pyStrip sampleInsert.text ∧
    (((∃ cs, (⟨"insert into t1(col_a, col_b) values ('v_a', 2);",
        some [("t1.col_a", "'v_a'"), ("t1.col_b", "2")], none⟩ : ExtractionResult).columns
          = some cs) ∧
      (⟨"insert into t1(col_a, col_b) values ('v_a', 2);",
        some [("t1.col_a", "'v_a'"), ("t1.col_b", "2")], none⟩ : ExtractionResult).error
          = none) ∨
     ((⟨"insert into t1(col_a, col_b) values ('v_a', 2);",
        some [("t1.col_a", "'v_a'"), ("t1.col_b", "2")], none⟩ : ExtractionResult).columns
          = none ∧
      ∃ msg, (⟨"insert into t1(col_a, col_b) values ('v_a', 2);",
        some [("t1.col_a", "'v_a'"), ("t1.col_b", "2")], none⟩ : ExtractionResult).error
          = some msg)) :=
  result_exactly_one_of_columns_error sampleInsert _ rfl

/-- C5: an INSERT's top-level children are bucketed in order — every
`Function`-kind node into the target sequence, every `Parenthesis`-kind
node into the value sequence — the extractor consumes exactly the
positional zip of the two sequences, the zip has `min` length, and its
`i`-th element is the pair of the `i`-th target and the `i`-th value
group; groups beyond the shorter sequence are not paired. -/
theorem insert_bucketing_positional_pairing (s : Statement)
    (hty : s.get_type = "INSERT") :
    bucketGroups s.children =
      (s.children.filter TokTree.isFunction,
       s.children.filter TokTree.isParenthesis) ∧
    extract_col_values s =
      (match pairLoop ((s.children.filter TokTree.isFunction).zip
                       (s.children.filter TokTree.isParenthesis)) with
       | .ok colvals => .ok ⟨pyStrip s.text, some colvals, none⟩
       | .error e => .error e) ∧
    ((s.children.filter TokTree.isFunction).zip
      (s.children.filter TokTree.isParenthesis)).length =
      min (s.children.filter TokTree.isFunction).length
          (s.children.filter TokTree.isParenthesis).length ∧
    ∀ (i : ℕ) (h1 : i < (s.children.filter TokTree.isFunction).length)
      (h2 : i < (s.children.filter TokTree.isParenthesis).length),
      ((s.children.filter TokTree.isFunction).zip
        (s.children.filter TokTree.isParenthesis)).get
          ⟨i, by rw [List.length_zip]; exact lt_min h1 h2⟩ =
        ((s.children.filter TokTree.isFunction).get ⟨i, h1⟩,
         (s.children.filter TokTree.isParenthesis).get ⟨i, h2⟩) := by
  refine ⟨bucketGroups_eq_filters s.children, extract_insert s hty,
    List.length_zip _ _, ?_⟩
  intro i h1 h2
  simp [List.get_eq_getElem, List.getElem_zip]

/-- Witness for C5 at the INSERT ALL sample. -/
theorem insert_bucketing_positional_pairing_witness :
    bucketGroups sampleInsertAll.children =
      (sampleInsertAll.children.filter TokTree.isFunction,
       sampleInsertAll.children.filter TokTree.isParenthesis) ∧
    extract_col_values sampleInsertAll =
      (match pairLoop ((sampleInsertAll.children.filter TokTree.isFunction).zip
                       (sampleInsertAll.children.filter TokTree.isParenthesis)) with
       | .ok colvals => .ok ⟨pyStrip sampleInsertAll.text, some colvals, none⟩
       | .error e => .error e) ∧
    ((sampleInsertAll.children.filter TokTree.isFunction).zip
      (sampleInsertAll.children.filter TokTree.isParenthesis)).length =
      min (sampleInsertAll.children.filter TokTree.isFunction).length
          (sampleInsertAll.children.filter TokTree.isParenthesis).length ∧
    ∀ (i : ℕ) (h1 : i < (sampleInsertAll.children.filter TokTree.isFunction).length)
      (h2 : i < (sampleInsertAll.children.filter TokTree.isParenthesis).length),
      ((sampleInsertAll.children.filter TokTree.isFunction).zip
        (sampleInsertAll.children.filter TokTree.isParenthesis)).get
          ⟨i, by rw [List.length_zip]; exact lt_min h1 h2⟩ =
        ((sampleInsertAll.children.filter TokTree.isFunction).get ⟨i, h1⟩,
         (sampleInsertAll.children.filter TokTree.isParenthesis).get ⟨i, h2⟩) :=
  insert_bucketing_positional_pairing sampleInsertAll rfl

/-- C6: a child of the column `IdentifierList` is kept as a column iff it
is an `Identifier`-kind composite or a leaf whose ttype is `Keyword`;
every other child is discarded, order is preserved, and each kept
child's exact source text is the recorded column name — which the
extractor then emits, qualified, as the first components of its output
pairs. -/
theorem column_keep_rule (g v a b il vl : TokTree)
    (hab : g.children.filter TokTree.isTokenList = [a, b])
    (hil : (b.children.filter TokTree.isIdentifierList).head? = some il)
    (hvl : (v.children.filter TokTree.isIdentifierList).head? = some vl)
    (hlen : (collectValues vl.children).length = (collectColumns il.children).length) :
    collectColumns il.children =
      (il.children.filter fun t => t.isIdentifier || t.ttypeIsKeyword).map
        TokTree.text ∧
    (tokenize_cols_values g v).map (fun colvals => colvals.map Prod.fst) =
      .ok ((collectColumns il.children).map fun c => a.text ++ "." ++ c) := by
  refine ⟨collectColumns_eq_filter_map il.children, ?_⟩
  rw [tokenize_eq_ok g v a b il vl hab hil hvl hlen]
  simp only [Except.map]
  congr 1
  apply List.map_fst_zip
  rw [List.length_map]
  exact le_of_eq hlen.symm

/-- Witness for C6 at the sample target/value group. -/
theorem column_keep_rule_witness :
    collectColumns ilCols1.children =
      (ilCols1.children.filter fun t => t.isIdentifier || t.ttypeIsKeyword).map
        TokTree.text ∧
    (tokenize_cols_values sampleTarget1 sampleValues1).map
        (fun colvals => colvals.map Prod.fst) =
      .ok ((collectColumns ilCols1.children).map fun c => identT1.text ++ "." ++ c) :=
  column_keep_rule sampleTarget1 sampleValues1 identT1 parenCols1 ilCols1 ilVals1
    rfl rfl rfl rfl

/-- C7: a child of the value `IdentifierList` is discarded iff it is a
leaf whose ttype is `Punctuation` or `Whitespace`; every other child is
kept, in order, with its exact source text recorded verbatim — and the
extractor emits exactly those texts as the second components of its
output pairs. -/
theorem value_keep_rule (g v a b il vl : TokTree)
    (hab : g.children.filter TokTree.isTokenList = [a, b])
    (hil : (b.children.filter TokTree.isIdentifierList).head? = some il)
    (hvl : (v.children.filter TokTree.isIdentifierList).head? = some vl)
    (hlen : (collectValues vl.children).length = (collectColumns il.children).length) :
    collectValues vl.children =
      (vl.children.filter fun t => !t.ttypeIsPunctOrWs).map TokTree.text ∧
    (tokenize_cols_values g v).map (fun colvals => colvals.map Prod.snd) =
      .ok (collectValues vl.children) := by
  refine ⟨collectValues_eq_filter_map vl.children, ?_⟩
  rw [tokenize_eq_ok g v a b il vl hab hil hvl hlen]
  simp only [Except.map]
  congr 1
  apply List.map_snd_zip
  rw [List.length_map]
  exact le_of_eq hlen

/-- Witness for C7 at the sample target/value group. -/
theorem value_keep_rule_witness :
    collectValues ilVals1.children =
      (ilVals1.children.filter fun t => !t.ttypeIsPunctOrWs).map TokTree.text ∧
    (tokenize_cols_values sampleTarget1 sampleValues1).map
        (fun colvals => colvals.map Prod.snd) =
      .ok (collectValues ilVals1.children) :=
  value_keep_rule sampleTarget1 sampleValues1 identT1 parenCols1 ilCols1 ilVals1
    rfl rfl rfl rfl

/-- C8: an unclassifiable statement yields the per-statement error
`Parsing failed`, a recognized non-INSERT statement yields
`Unsupported query type {verb}` with the tokenizer's reported verb, and
in both cases (indeed for any statement whose extraction succeeds)
processing continues with the remaining statements. -/
theorem statement_scoped_errors (s : Statement) :
    (s.get_type = "UNKNOWN" →
      extract_col_values s = .ok ⟨pyStrip s.text, none, some "Parsing failed"⟩) ∧
    (s.get_type ≠ "UNKNOWN" → s.get_type ≠ "INSERT" →
      extract_col_values s =
        .ok ⟨pyStrip s.text, none,
             some ("Unsupported query type " ++ s.get_type)⟩) ∧
    (∀ r rest, pyIsSpace s.text = false → extract_col_values s = .ok r →
      split_queries (s :: rest) = (split_queries rest).map fun rs => r :: rs) := by
  refine ⟨?_, ?_, ?_⟩
  · intro h1
    unfold extract_col_values
    rw [if_pos h1]
  · intro h1 h2
    unfold extract_col_values
    rw [if_neg h1, if_pos h2]
  · intro r rest hsp hok
    unfold split_queries
    rw [@List.filter_cons_of_pos _ (fun q => !pyIsSpace q.text) s rest
          (by simp [hsp]),
        extractLoop_cons s _ r hok]

/-- Witness for C8: an unparseable statement and a SELECT statement. -/
theorem statement_scoped_errors_witness :
    extract_col_values sampleUnknown =
      .ok ⟨"reiteb5yiure", none, some "Parsing failed"⟩ ∧
    extract_col_values sampleSelect =
      .ok ⟨"select 1 from dual;", none,
           some ("Unsupported query type " ++ "SELECT")⟩ ∧
    split_queries [sampleUnknown, sampleSelect] =
      (split_queries [sampleSelect]).map fun rs =>
        (⟨"reiteb5yiure", none, some "Parsing failed"⟩ : ExtractionResult) :: rs := by
  have h1 := (statement_scoped_errors sampleUnknown).1 rfl
  have h2 := (statement_scoped_errors sampleSelect).2.1 (by decide) (by decide)
  exact ⟨h1, h2,
    (statement_scoped_errors sampleUnknown).2.2 _ [sampleSelect] rfl h1⟩

/-- C9: when the column wrapper of a target group (or the value group)
holds no `IdentifierList` child, the extractor raises the unguarded
`IndexError` from the `[0]` indexing — a different exception from the
`AssertionError` that the spec calls `StructuralMismatch` — it is not
converted into a per-statement error record, and it terminates the
entire run. -/
theorem missing_identifier_list_unguarded_abort (g v a b : TokTree)
    (hab : g.children.filter TokTree.isTokenList = [a, b])
    (hmiss : b.children.filter TokTree.isIdentifierList = [] ∨
             v.children.filter TokTree.isIdentifierList = []) :
    tokenize_cols_values g v = .error .indexError ∧
    PyExn.indexError ≠ PyExn.assertionError ∧
    ∀ s : Statement, s.get_type = "INSERT" →
      (g, v) ∈ (s.children.filter TokTree.isFunction).zip
               (s.children.filter TokTree.isParenthesis) →
      (∀ r, extract_col_values s ≠ .ok r) ∧
      ∀ stmts, s ∈ stmts.filter (fun q => !pyIsSpace q.text) →
        ∀ rs, split_queries stmts ≠ .ok rs := by
  have htok : tokenize_cols_values g v = .error .indexError := by
    rcases hmiss with hb | hv
    · simp [tokenize_cols_values, hab, hb]
    · cases hcb : (b.children.filter TokTree.isIdentifierList).head? with
      | none => simp [tokenize_cols_values, hab, hcb]
      | some il => simp [tokenize_cols_values, hab, hcb, hv]
  refine ⟨htok, by decide, ?_⟩
  intro s hty hpair
  have hext := extract_insert_not_ok s hty fun ps => pairLoop_not_ok htok hpair ps
  exact ⟨hext, fun stmts hmem rs => split_queries_not_ok hmem hext rs⟩

/-- Witness for C9: a column wrapper `()` with no `IdentifierList`. -/
theorem missing_identifier_list_unguarded_abort_witness :
    tokenize_cols_values noIlTarget singleValue = .error .indexError ∧
    PyExn.indexError ≠ PyExn.assertionError ∧
    ((∀ r, extract_col_values noIlInsert ≠ .ok r) ∧
     ∀ rs, split_queries [noIlInsert] ≠ .ok rs) := by
  have h := missing_identifier_list_unguarded_abort noIlTarget singleValue identT1
    (.node .ParenthesisGroup [.leaf .Punctuation "(", .leaf .Punctuation ")"])
    rfl (.inl rfl)
  have h3 := h.2.2 noIlInsert rfl (List.mem_singleton.mpr rfl)
  exact ⟨h.1, h.2.1, h3.1,
    fun rs => h3.2 [noIlInsert] (List.mem_singleton.mpr rfl) rs⟩

/-- C10: an INSERT whose top-level children contain no `Function`-kind
node and no `Parenthesis`-kind node extracts successfully with an empty
`columns` sequence, not an error. -/
theorem insert_without_groups_yields_empty_columns (s : Statement)
    (hty : s.get_type = "INSERT")
    (hf : s.children.filter TokTree.isFunction = [])
    (hp : s.children.filter TokTree.isParenthesis = []) :
    extract_col_values s = .ok ⟨pyStrip s.text, some [], none⟩ := by
  rw [extract_insert s hty, hf, hp]
  rfl

/-- Witness for C10 at a groupless INSERT. -/
theorem insert_without_groups_yields_empty_columns_witness :
    extract_col_values bareInsert = .ok ⟨"insert into t1", some [], none⟩ :=
  insert_without_groups_yields_empty_columns bareInsert rfl rfl rfl
